import Mathlib

/-!
Verification of the ContainerRuntime reconciler
(`extensions/pkg/controller/containerruntime/reconciler.go`).

The reconciler is embedded shallowly: every external call (client get,
cluster resolution, ownership watchdog, status updater, actuator,
finalizer and annotation helpers) is given its outcome by an explicit
environment of oracles, and each function additionally returns the
managed object after all store writes together with the ordered trace of
external calls it performed.  Helper functions that live outside this
repository (gardener library helpers) are modelled from the spec and are
marked as such in their doc comments.
-/

namespace ContainerRuntimeReconciler

/-- The four lifecycle operation types of the last-operation record
(`gardencorev1beta1.LastOperationType`, restricted to the four phases the
reconciler dispatches on). -/
inductive OpType where
  | reconcile
  | restore
  | delete
  | migrate
deriving DecidableEq, Repr

/-- The state field of a last-operation record
(`gardencorev1beta1.LastOperationState`). -/
inductive OpState where
  | processing
  | succeeded
  | error
deriving DecidableEq, Repr

/-- A last-operation record as stored in the object status. -/
structure LastOp where
  type : OpType
  state : OpState
  description : String
deriving DecidableEq, Repr

/-- The managed `ContainerRuntime` object: the metadata and status fields
the reconciler reads and writes.  `deletionTimestamp = none` means no
deletion was requested. -/
structure ContainerRuntime where
  name : String
  namespaceName : String
  finalizers : List String
  annotations : List (String × String)
  deletionTimestamp : Option Nat
  lastOperation : Option LastOp
deriving DecidableEq, Repr

/-- The cluster descriptor resolved by `extensionscontroller.GetCluster`:
whether the shoot is failed, and the shoot name when the shoot is live
(`cluster.Shoot != nil`). -/
structure Cluster where
  failed : Bool
  shoot : Option String
deriving DecidableEq, Repr

/-- Errors returned by the reconciler or by the external collaborators.
`retriable` models `extensionscontroller.ReconcileErr` wrapping an
actuator failure with its cause preserved; `annotated` models a
`fmt.Errorf` wrap that prepends a message to an underlying cause. -/
inductive Err where
  | msg (s : String)
  | retriable (cause : Err)
  | annotated (s : String) (cause : Err)
deriving DecidableEq, Repr

/-- The underlying cause preserved inside a wrapped error. -/
def Err.underlyingCause : Err → Err
  | .msg s => .msg s
  | .retriable c => c
  | .annotated _ c => c

/-- Outcome of the initial `client.Get` call. -/
inductive GetResult where
  | notFound
  | failed (e : Err)
  | ok (cr : ContainerRuntime)
deriving DecidableEq, Repr

/-- Outcome of `common.GetOwnerCheckResultAndContext`: the ownership
verdict and whether a non-nil cleanup function was returned. -/
structure WatchdogOutcome where
  ok : Bool
  hasCleanup : Bool
deriving DecidableEq, Repr

/-- One external call performed by the reconciler, recorded in order. -/
inductive Event where
  | watchdogCheck
  | cleanup
  | actuatorCall (t : OpType)
  | statusProcessing (t : OpType)
  | statusSuccess (t : OpType)
  | statusError (t : OpType)
  | ensureFinalizerCall
  | removeFinalizerCall
  | deleteAllFinalizersCall
  | removeAnnotCall
deriving DecidableEq, Repr

/-- Environment of oracles fixing the outcome of every external call a
single reconciler invocation can make.  `none` means the call succeeds,
`some e` that it fails with `e`.  `shouldSkip` is the verdict of
`extensionscontroller.ShouldSkipOperation` (library code outside this
repository, treated as an opaque predicate). -/
structure Env where
  getResult : GetResult
  clusterResult : Except Err Cluster
  shouldSkip : Bool
  watchdogResult : Except Err WatchdogOutcome
  ensureFinalizerResult : Option Err
  processingResult : OpType → Option Err
  actuatorResult : OpType → Option Err
  successResult : OpType → Option Err
  errorStatusResult : OpType → Option Err
  removeFinalizerResult : Option Err
  deleteAllFinalizersResult : Option Err
  removeAnnotResult : Option Err

/-- This controller's finalizer token (`FinalizerName` of the
containerruntime controller). -/
def FinalizerName : String := "extensions.gardener.cloud/containerruntime"

/-- The operation-trigger annotation key
(`v1beta1constants.GardenerOperation`). -/
def operationAnnotKey : String := "gardener.cloud/operation"

/-- Look up an annotation value on the object. -/
def lookupAnnot (cr : ContainerRuntime) (key : String) : Option String :=
  (cr.annotations.find? (fun p => p.1 = key)).map (·.2)

/-- Modelled from the spec: `controllerutils.EnsureFinalizer` (gardener
library, not part of this repository) — ensure this core's finalizer
token is present, as an idempotent add. -/
def ensureFinalizer (cr : ContainerRuntime) : ContainerRuntime :=
  if FinalizerName ∈ cr.finalizers then cr
  else { cr with finalizers := cr.finalizers ++ [FinalizerName] }

/-- Modelled from the spec: `controllerutils.RemoveFinalizer` (gardener
library, not part of this repository) — remove this core's own finalizer
token. -/
def removeFinalizer (cr : ContainerRuntime) : ContainerRuntime :=
  { cr with finalizers := cr.finalizers.filter (fun f => f ≠ FinalizerName) }

/-- Modelled from the spec: `extensionscontroller.DeleteAllFinalizers`
(gardener library, not part of this repository) — clear all finalizer
tokens, not only this core's own. -/
def deleteAllFinalizers (cr : ContainerRuntime) : ContainerRuntime :=
  { cr with finalizers := [] }

/-- Modelled from the spec: `extensionscontroller.RemoveAnnotation`
(gardener library, not part of this repository) — remove the given
annotation key. -/
def removeAnnot (cr : ContainerRuntime) (key : String) : ContainerRuntime :=
  { cr with annotations := cr.annotations.filter (fun p => p.1 ≠ key) }

/-- Write a last-operation record to the object status, as the status
updater does on a successful store write. -/
def setLastOp (cr : ContainerRuntime) (t : OpType) (s : OpState)
    (description : String) : ContainerRuntime :=
  { cr with lastOperation := some ⟨t, s, description⟩ }

/-- Modelled from the spec: the Operation Classifier
(`gardencorev1beta1helper.ComputeOperationType`, gardener library, not
part of this repository) — `Migrate` if the migrate trigger is set or the
last recorded operation type is `Migrate` and it has not yet been cleared
(not yet `Succeeded`); `Delete` if the deletion marker is set; `Restore`
if the restore trigger is set or the last-operation type is `Restore` and
not yet succeeded; otherwise `Reconcile`. -/
def computeOperationType (cr : ContainerRuntime) : OpType :=
  if lookupAnnot cr operationAnnotKey = some "migrate" then .migrate
  else if cr.lastOperation.any
      (fun lo => lo.type = OpType.migrate ∧ lo.state ≠ OpState.succeeded) then .migrate
  else if cr.deletionTimestamp.isSome then .delete
  else if lookupAnnot cr operationAnnotKey = some "restore" then .restore
  else if cr.lastOperation.any
      (fun lo => lo.type = OpType.restore ∧ lo.state ≠ OpState.succeeded) then .restore
  else .reconcile

/-- The result of one reconciler function: the returned error (if any),
the managed object after all store writes, and the ordered trace of
external calls. -/
abbrev Outcome := Except Err Unit × ContainerRuntime × List Event

/-- The `reconcile` phase handler (`reconciler.reconcile`): ensure the
finalizer, report Processing, call the actuator's Reconcile, report
Success; on actuator failure report Error best-effort and return a
retriable error preserving the cause. -/
def reconcilePhase (env : Env) (cr : ContainerRuntime) (operationType : OpType) :
    Outcome :=
  match env.ensureFinalizerResult with
  | some e => (.error e, cr, [.ensureFinalizerCall])
  | none =>
    let cr := ensureFinalizer cr
    match env.processingResult operationType with
    | some e => (.error e, cr, [.ensureFinalizerCall, .statusProcessing operationType])
    | none =>
      let cr := setLastOp cr operationType .processing "Reconciling the containerruntime"
      match env.actuatorResult operationType with
      | some e =>
        let cr := if (env.errorStatusResult operationType).isNone then
            setLastOp cr operationType .error "Error reconciling containerruntime"
          else cr
        (.error (.retriable e), cr,
          [.ensureFinalizerCall, .statusProcessing operationType,
            .actuatorCall operationType, .statusError operationType])
      | none =>
        match env.successResult operationType with
        | some e =>
          (.error e, cr,
            [.ensureFinalizerCall, .statusProcessing operationType,
              .actuatorCall operationType, .statusSuccess operationType])
        | none =>
          let cr := setLastOp cr operationType .succeeded
            "Successfully reconciled containerruntime"
          (.ok (), cr,
            [.ensureFinalizerCall, .statusProcessing operationType,
              .actuatorCall operationType, .statusSuccess operationType])

/-- The `restore` phase handler (`reconciler.restore`): like reconcile
with operation type Restore, and after the Success report it removes the
operation-trigger annotation (failure wrapped with a message). -/
def restorePhase (env : Env) (cr : ContainerRuntime) : Outcome :=
  match env.ensureFinalizerResult with
  | some e => (.error e, cr, [.ensureFinalizerCall])
  | none =>
    let cr := ensureFinalizer cr
    match env.processingResult .restore with
    | some e => (.error e, cr, [.ensureFinalizerCall, .statusProcessing .restore])
    | none =>
      let cr := setLastOp cr .restore .processing "Restoring the containerruntime"
      match env.actuatorResult .restore with
      | some e =>
        let cr := if (env.errorStatusResult .restore).isNone then
            setLastOp cr .restore .error "Error restoring containerruntime"
          else cr
        (.error (.retriable e), cr,
          [.ensureFinalizerCall, .statusProcessing .restore,
            .actuatorCall .restore, .statusError .restore])
      | none =>
        match env.successResult .restore with
        | some e =>
          (.error e, cr,
            [.ensureFinalizerCall, .statusProcessing .restore,
              .actuatorCall .restore, .statusSuccess .restore])
        | none =>
          let cr := setLastOp cr .restore .succeeded
            "Successfully restored containerruntime"
          match env.removeAnnotResult with
          | some e =>
            (.error (.annotated "error removing annotation from containerruntime" e),
              cr,
              [.ensureFinalizerCall, .statusProcessing .restore,
                .actuatorCall .restore, .statusSuccess .restore, .removeAnnotCall])
          | none =>
            (.ok (), removeAnnot cr operationAnnotKey,
              [.ensureFinalizerCall, .statusProcessing .restore,
                .actuatorCall .restore, .statusSuccess .restore, .removeAnnotCall])

/-- The `delete` phase handler (`reconciler.delete`): a no-op when the
finalizer token is absent; otherwise report Processing, call the
actuator's Delete, report Success, then remove this core's finalizer
token (failure wrapped with a message). -/
def deletePhase (env : Env) (cr : ContainerRuntime) : Outcome :=
  if FinalizerName ∈ cr.finalizers then
    match env.processingResult .delete with
    | some e => (.error e, cr, [.statusProcessing .delete])
    | none =>
      let cr := setLastOp cr .delete .processing "Deleting the containerruntime"
      match env.actuatorResult .delete with
      | some e =>
        let cr := if (env.errorStatusResult .delete).isNone then
            setLastOp cr .delete .error "Error deleting containerruntime"
          else cr
        (.error (.retriable e), cr,
          [.statusProcessing .delete, .actuatorCall .delete, .statusError .delete])
      | none =>
        match env.successResult .delete with
        | some e =>
          (.error e, cr,
            [.statusProcessing .delete, .actuatorCall .delete, .statusSuccess .delete])
        | none =>
          let cr := setLastOp cr .delete .succeeded
            "Successfully deleted containerruntime"
          match env.removeFinalizerResult with
          | some e =>
            (.error (.annotated "error removing finalizer from the containerruntime" e),
              cr,
              [.statusProcessing .delete, .actuatorCall .delete,
                .statusSuccess .delete, .removeFinalizerCall])
          | none =>
            (.ok (), removeFinalizer cr,
              [.statusProcessing .delete, .actuatorCall .delete,
                .statusSuccess .delete, .removeFinalizerCall])
  else
    (.ok (), cr, [])

/-- The `migrate` phase handler (`reconciler.migrate`): report
Processing, call the actuator's Migrate, report Success, then delete all
finalizers and remove the operation-trigger annotation (each failure
wrapped with a message). -/
def migratePhase (env : Env) (cr : ContainerRuntime) : Outcome :=
  match env.processingResult .migrate with
  | some e => (.error e, cr, [.statusProcessing .migrate])
  | none =>
    let cr := setLastOp cr .migrate .processing "Migrating the containerruntime"
    match env.actuatorResult .migrate with
    | some e =>
      let cr := if (env.errorStatusResult .migrate).isNone then
          setLastOp cr .migrate .error "Error migrating containerruntime"
        else cr
      (.error (.retriable e), cr,
        [.statusProcessing .migrate, .actuatorCall .migrate, .statusError .migrate])
    | none =>
      match env.successResult .migrate with
      | some e =>
        (.error e, cr,
          [.statusProcessing .migrate, .actuatorCall .migrate, .statusSuccess .migrate])
      | none =>
        let cr := setLastOp cr .migrate .succeeded
          "Successfully migrated containerruntime"
        match env.deleteAllFinalizersResult with
        | some e =>
          (.error (.annotated "error removing finalizers from the containerruntime" e),
            cr,
            [.statusProcessing .migrate, .actuatorCall .migrate,
              .statusSuccess .migrate, .deleteAllFinalizersCall])
        | none =>
          let cr := deleteAllFinalizers cr
          match env.removeAnnotResult with
          | some e =>
            (.error (.annotated "error removing annotation from containerruntime" e),
              cr,
              [.statusProcessing .migrate, .actuatorCall .migrate,
                .statusSuccess .migrate, .deleteAllFinalizersCall, .removeAnnotCall])
          | none =>
            (.ok (), removeAnnot cr operationAnnotKey,
              [.statusProcessing .migrate, .actuatorCall .migrate,
                .statusSuccess .migrate, .deleteAllFinalizersCall, .removeAnnotCall])

/-- The switch at the end of `reconciler.Reconcile`: skip check first,
then dispatch in priority order Migrate, Delete (deletion timestamp set),
Restore, Reconcile (default). -/
def dispatch (env : Env) (cr : ContainerRuntime) (operationType : OpType) :
    Outcome :=
  if env.shouldSkip then (.ok (), cr, [])
  else if operationType = .migrate then migratePhase env cr
  else if cr.deletionTimestamp.isSome then deletePhase env cr
  else if operationType = .restore then restorePhase env cr
  else reconcilePhase env cr operationType

/-- The not-owner error message built by `reconciler.Reconcile`. -/
def notOwnerErr (shootName : String) : Err :=
  .msg ("this seed is not the owner of shoot " ++ shootName)

/-- The entry point `reconciler.Reconcile`: fetch the object (not-found
is a no-op), resolve the cluster, skip failed clusters, classify the
operation type, consult the ownership watchdog when the shoot is live and
the operation type is not Migrate (deferring its cleanup once acquired),
then dispatch.  The second component is the fetched object after all
store writes (`none` when no object was fetched). -/
def Reconcile (env : Env) : Except Err Unit × Option ContainerRuntime × List Event :=
  match env.getResult with
  | .notFound => (.ok (), none, [])
  | .failed e => (.error e, none, [])
  | .ok cr =>
    match env.clusterResult with
    | .error e => (.error e, some cr, [])
    | .ok cluster =>
      if cluster.failed then (.ok (), some cr, [])
      else
        let operationType := computeOperationType cr
        if cluster.shoot.isSome ∧ operationType ≠ .migrate then
          match env.watchdogResult with
          | .error e => (.error e, some cr, [.watchdogCheck])
          | .ok w =>
            if w.ok then
              let out := dispatch env cr operationType
              (out.1, some out.2.1,
                .watchdogCheck :: out.2.2 ++ (if w.hasCleanup then [.cleanup] else []))
            else
              (.error (notOwnerErr (cluster.shoot.getD "")), some cr, [.watchdogCheck])
        else
          let out := dispatch env cr operationType
          (out.1, some out.2.1, out.2.2)

/-! ### Sample inputs used to witness the theorems -/

/-- An object with the migrate trigger annotation set and two finalizer
tokens, one of which is not this core's own. -/
def sampleCr : ContainerRuntime :=
  { name := "gvisor", namespaceName := "shoot--foo--bar",
    finalizers := [FinalizerName, "other.provider/token"],
    annotations := [(operationAnnotKey, "migrate")],
    deletionTimestamp := none,
    lastOperation := some ⟨.migrate, .processing, "migrating"⟩ }

/-- A freshly created object: no finalizer, no annotations, no
last-operation record, no deletion request. -/
def plainCr : ContainerRuntime :=
  { name := "gvisor", namespaceName := "shoot--foo--bar",
    finalizers := [], annotations := [],
    deletionTimestamp := none, lastOperation := none }

/-- An object with this core's finalizer whose deletion was requested. -/
def deletingCr : ContainerRuntime :=
  { name := "gvisor", namespaceName := "shoot--foo--bar",
    finalizers := [FinalizerName], annotations := [],
    deletionTimestamp := some 1, lastOperation := none }

/-- An environment in which every external call succeeds: the object is
fetched, the cluster is live and not failed, the watchdog confirms
ownership with a cleanup function, and all store writes succeed. -/
def okEnv (cr : ContainerRuntime) : Env :=
  { getResult := .ok cr,
    clusterResult := .ok ⟨false, some "bar"⟩,
    shouldSkip := false,
    watchdogResult := .ok ⟨true, true⟩,
    ensureFinalizerResult := none,
    processingResult := fun _ => none,
    actuatorResult := fun _ => none,
    successResult := fun _ => none,
    errorStatusResult := fun _ => none,
    removeFinalizerResult := none,
    deleteAllFinalizersResult := none,
    removeAnnotResult := none }

/-! ### Helper lemmas -/

lemma mem_ensureFinalizer (cr : ContainerRuntime) :
    FinalizerName ∈ (ensureFinalizer cr).finalizers := by
  unfold ensureFinalizer
  split
  · assumption
  · simp

lemma lookupAnnot_removeAnnot (cr : ContainerRuntime) (key : String) :
    lookupAnnot (removeAnnot cr key) key = none := by
  simp only [lookupAnnot, removeAnnot]
  induction cr.annotations with
  | nil => rfl
  | cons p l ih =>
    by_cases h : p.1 = key <;>
      simp [h, List.filter_cons, List.find?_cons, ih]

/-- C6: when the resolved cluster is failed, Reconcile returns a no-op
success: the final object is exactly the fetched one and the trace is
empty, so no phase handler ran, the watchdog was not consulted, and no
store mutation was performed, for any classified phase. -/
theorem failed_cluster_short_circuit (env : Env) (cr : ContainerRuntime)
    (cluster : Cluster) (hg : env.getResult = .ok cr)
    (hc : env.clusterResult = .ok cluster) (hf : cluster.failed = true) :
    Reconcile env = (.ok (), some cr, []) := by
  simp [Reconcile, hg, hc, hf]

/-- C6 witness. -/
theorem failed_cluster_short_circuit_witness :
    Reconcile { okEnv sampleCr with clusterResult := .ok ⟨true, some "bar"⟩ } =
      (.ok (), some sampleCr, []) :=
  failed_cluster_short_circuit _ sampleCr ⟨true, some "bar"⟩ rfl rfl rfl

/-- C5: for an object that does not carry this core's finalizer token,
the delete handler returns success immediately with the object unchanged
and an empty trace: the actuator Delete is never invoked and no status or
store write is performed. -/
theorem delete_noop (env : Env) (cr : ContainerRuntime)
    (h : FinalizerName ∉ cr.finalizers) :
    deletePhase env cr = (.ok (), cr, []) := by
  simp [deletePhase, h]

/-- C5 witness. -/
theorem delete_noop_witness :
    deletePhase (okEnv plainCr) plainCr = (.ok (), plainCr, []) :=
  delete_noop (okEnv plainCr) plainCr (by simp [plainCr])

/-- C2: after a successful Migrate phase (Processing write, actuator
Migrate and Succeeded write all succeed), if the two cleanup writes also
succeed the object ends with zero finalizer tokens and without the
operation-trigger annotation, regardless of its initial tokens; if either
cleanup write fails, the migrate handler returns that error (wrapped with
the corresponding message). -/
theorem migrate_clears_everything (env : Env) (cr : ContainerRuntime)
    (hp : env.processingResult .migrate = none)
    (ha : env.actuatorResult .migrate = none)
    (hs : env.successResult .migrate = none) :
    (env.deleteAllFinalizersResult = none → env.removeAnnotResult = none →
      (migratePhase env cr).1 = .ok () ∧
      (migratePhase env cr).2.1.finalizers = [] ∧
      lookupAnnot (migratePhase env cr).2.1 operationAnnotKey = none) ∧
    (∀ e, env.deleteAllFinalizersResult = some e →
      (migratePhase env cr).1 =
        .error (.annotated "error removing finalizers from the containerruntime" e)) ∧
    (∀ e, env.deleteAllFinalizersResult = none → env.removeAnnotResult = some e →
      (migratePhase env cr).1 =
        .error (.annotated "error removing annotation from containerruntime" e)) := by
  refine ⟨fun hd hr => ?_, fun e hd => ?_, fun e hd hr => ?_⟩
  · refine ⟨?_, ?_, ?_⟩
    · simp [migratePhase, hp, ha, hs, hd, hr]
    · simp [migratePhase, hp, ha, hs, hd, hr, removeAnnot, deleteAllFinalizers, setLastOp]
    · simp only [migratePhase, hp, ha, hs, hd, hr]
      exact lookupAnnot_removeAnnot _ _
  · simp [migratePhase, hp, ha, hs, hd]
  · simp [migratePhase, hp, ha, hs, hd, hr]

/-- C2 witness. -/
theorem migrate_clears_everything_witness :
    (migratePhase (okEnv sampleCr) sampleCr).1 = .ok () ∧
    (migratePhase (okEnv sampleCr) sampleCr).2.1.finalizers = [] ∧
    lookupAnnot (migratePhase (okEnv sampleCr) sampleCr).2.1 operationAnnotKey = none :=
  (migrate_clears_everything (okEnv sampleCr) sampleCr rfl rfl rfl).1 rfl rfl

/-- C8: in each of the four phase handlers, a failure of the Processing
status write aborts the handler immediately with exactly that error: the
handler's full outcome shows the actuator was not invoked and no
bookkeeping mutation followed (the trace ends at the Processing attempt,
and the object carries at most the pre-step finalizer add of the
reconcile and restore handlers). -/
theorem processing_failure_aborts (env : Env) (cr : ContainerRuntime)
    (t : OpType) (e : Err) :
    (env.ensureFinalizerResult = none → env.processingResult t = some e →
      reconcilePhase env cr t =
        (.error e, ensureFinalizer cr, [.ensureFinalizerCall, .statusProcessing t])) ∧
    (env.ensureFinalizerResult = none → env.processingResult .restore = some e →
      restorePhase env cr =
        (.error e, ensureFinalizer cr, [.ensureFinalizerCall, .statusProcessing .restore])) ∧
    (FinalizerName ∈ cr.finalizers → env.processingResult .delete = some e →
      deletePhase env cr = (.error e, cr, [.statusProcessing .delete])) ∧
    (env.processingResult .migrate = some e →
      migratePhase env cr = (.error e, cr, [.statusProcessing .migrate])) := by
  refine ⟨fun hf hp => ?_, fun hf hp => ?_, fun hm hp => ?_, fun hp => ?_⟩
  · simp [reconcilePhase, hf, hp]
  · simp [restorePhase, hf, hp]
  · simp [deletePhase, hm, hp]
  · simp [migratePhase, hp]

/-- C8 witness. -/
theorem processing_failure_aborts_witness :
    deletePhase { okEnv deletingCr with processingResult := fun _ => some (.msg "boom") }
        deletingCr =
      (.error (.msg "boom"), deletingCr, [.statusProcessing .delete]) :=
  (processing_failure_aborts
      { okEnv deletingCr with processingResult := fun _ => some (.msg "boom") }
      deletingCr .delete (.msg "boom")).2.2.1 (by simp [deletingCr]) rfl

/-- C7: in each phase handler, when the actuator call fails with cause
`e`, the handler returns the retriable wrapper around `e` (the underlying
cause is preserved, as `Err.underlyingCause` extracts it), the Error
status report is attempted (last trace event) but its own outcome — left
unconstrained in the environment — never changes the returned error, and
no bookkeeping mutation (finalizer removal, annotation clearing) appears
in the trace. -/
theorem actuator_failure_handling (env : Env) (cr : ContainerRuntime)
    (t : OpType) (e : Err) :
    (env.ensureFinalizerResult = none → env.processingResult t = none →
      env.actuatorResult t = some e →
      (reconcilePhase env cr t).1 = .error (.retriable e) ∧
      (reconcilePhase env cr t).2.2 =
        [.ensureFinalizerCall, .statusProcessing t, .actuatorCall t, .statusError t]) ∧
    (env.ensureFinalizerResult = none → env.processingResult .restore = none →
      env.actuatorResult .restore = some e →
      (restorePhase env cr).1 = .error (.retriable e) ∧
      (restorePhase env cr).2.2 =
        [.ensureFinalizerCall, .statusProcessing .restore, .actuatorCall .restore,
          .statusError .restore]) ∧
    (FinalizerName ∈ cr.finalizers → env.processingResult .delete = none →
      env.actuatorResult .delete = some e →
      (deletePhase env cr).1 = .error (.retriable e) ∧
      (deletePhase env cr).2.2 =
        [.statusProcessing .delete, .actuatorCall .delete, .statusError .delete]) ∧
    (env.processingResult .migrate = none → env.actuatorResult .migrate = some e →
      (migratePhase env cr).1 = .error (.retriable e) ∧
      (migratePhase env cr).2.2 =
        [.statusProcessing .migrate, .actuatorCall .migrate, .statusError .migrate]) ∧
    Err.underlyingCause (.retriable e) = e := by
  refine ⟨fun hf hp ha => ?_, fun hf hp ha => ?_, fun hm hp ha => ?_,
    fun hp ha => ?_, rfl⟩
  · constructor <;> simp [reconcilePhase, hf, hp, ha]
  · constructor <;> simp [restorePhase, hf, hp, ha]
  · constructor <;> simp [deletePhase, hm, hp, ha]
  · constructor <;> simp [migratePhase, hp, ha]

/-- C7 witness. -/
theorem actuator_failure_handling_witness :
    (reconcilePhase { okEnv plainCr with actuatorResult := fun _ => some (.msg "boom") }
        plainCr .reconcile).1 = .error (.retriable (.msg "boom")) :=
  ((actuator_failure_handling
      { okEnv plainCr with actuatorResult := fun _ => some (.msg "boom") }
      plainCr .reconcile (.msg "boom")).1 rfl rfl rfl).1

lemma reconcilePhase_head (env : Env) (cr : ContainerRuntime) (t : OpType) :
    (reconcilePhase env cr t).2.2.head? = some .ensureFinalizerCall := by
  unfold reconcilePhase
  repeat' split
  all_goals simp

lemma restorePhase_head (env : Env) (cr : ContainerRuntime) :
    (restorePhase env cr).2.2.head? = some .ensureFinalizerCall := by
  unfold restorePhase
  repeat' split
  all_goals simp

lemma reconcilePhase_finalizer_mem (env : Env) (cr : ContainerRuntime)
    (t : OpType) (hf : env.ensureFinalizerResult = none) :
    FinalizerName ∈ (reconcilePhase env cr t).2.1.finalizers := by
  simp only [reconcilePhase, hf]
  repeat' split
  all_goals simp [setLastOp, mem_ensureFinalizer]

lemma restorePhase_finalizer_mem (env : Env) (cr : ContainerRuntime)
    (hf : env.ensureFinalizerResult = none) :
    FinalizerName ∈ (restorePhase env cr).2.1.finalizers := by
  simp only [restorePhase, hf]
  repeat' split
  all_goals simp [setLastOp, removeAnnot, mem_ensureFinalizer]

/-- C10: in the reconcile and restore handlers the finalizer add is the
first external call (it precedes the Processing status write), once it
succeeds the final object always carries this core's finalizer token
(in particular whenever the handler wrote a Processing record of type
Reconcile or Restore), and a failure to add the finalizer aborts the
phase with that error before any status mutation, leaving the object
unchanged. -/
theorem finalizer_before_processing (env : Env) (cr : ContainerRuntime)
    (t : OpType) :
    (reconcilePhase env cr t).2.2.head? = some .ensureFinalizerCall ∧
    (restorePhase env cr).2.2.head? = some .ensureFinalizerCall ∧
    (env.ensureFinalizerResult = none →
      FinalizerName ∈ (reconcilePhase env cr t).2.1.finalizers ∧
      FinalizerName ∈ (restorePhase env cr).2.1.finalizers) ∧
    (∀ e, env.ensureFinalizerResult = some e →
      reconcilePhase env cr t = (.error e, cr, [.ensureFinalizerCall]) ∧
      restorePhase env cr = (.error e, cr, [.ensureFinalizerCall])) := by
  refine ⟨reconcilePhase_head env cr t, restorePhase_head env cr,
    fun hf => ⟨reconcilePhase_finalizer_mem env cr t hf,
      restorePhase_finalizer_mem env cr hf⟩,
    fun e hf => ⟨?_, ?_⟩⟩
  · simp [reconcilePhase, hf]
  · simp [restorePhase, hf]

/-- C10 witness. -/
theorem finalizer_before_processing_witness :
    FinalizerName ∈ (reconcilePhase (okEnv plainCr) plainCr .reconcile).2.1.finalizers ∧
    FinalizerName ∈ (restorePhase (okEnv plainCr) plainCr).2.1.finalizers :=
  (finalizer_before_processing (okEnv plainCr) plainCr .reconcile).2.2.1 rfl

lemma reconcilePhase_trace_local (env : Env) (cr : ContainerRuntime) (t : OpType) :
    Event.watchdogCheck ∉ (reconcilePhase env cr t).2.2 ∧
    Event.cleanup ∉ (reconcilePhase env cr t).2.2 := by
  unfold reconcilePhase
  repeat' split
  all_goals simp

lemma restorePhase_trace_local (env : Env) (cr : ContainerRuntime) :
    Event.watchdogCheck ∉ (restorePhase env cr).2.2 ∧
    Event.cleanup ∉ (restorePhase env cr).2.2 := by
  unfold restorePhase
  repeat' split
  all_goals simp

lemma deletePhase_trace_local (env : Env) (cr : ContainerRuntime) :
    Event.watchdogCheck ∉ (deletePhase env cr).2.2 ∧
    Event.cleanup ∉ (deletePhase env cr).2.2 := by
  unfold deletePhase
  repeat' split
  all_goals simp

lemma migratePhase_trace_local (env : Env) (cr : ContainerRuntime) :
    Event.watchdogCheck ∉ (migratePhase env cr).2.2 ∧
    Event.cleanup ∉ (migratePhase env cr).2.2 := by
  unfold migratePhase
  repeat' split
  all_goals simp

lemma dispatch_trace_local (env : Env) (cr : ContainerRuntime) (t : OpType) :
    Event.watchdogCheck ∉ (dispatch env cr t).2.2 ∧
    Event.cleanup ∉ (dispatch env cr t).2.2 := by
  unfold dispatch
  repeat' split
  all_goals first
    | simp
    | exact migratePhase_trace_local env cr
    | exact deletePhase_trace_local env cr
    | exact restorePhase_trace_local env cr
    | exact reconcilePhase_trace_local env cr t

lemma Reconcile_guard_bypassed (env : Env) (cr : ContainerRuntime)
    (cluster : Cluster) (hg : env.getResult = .ok cr)
    (hc : env.clusterResult = .ok cluster) (hf : cluster.failed = false)
    (hguard : ¬(cluster.shoot.isSome ∧ computeOperationType cr ≠ .migrate)) :
    Reconcile env = ((dispatch env cr (computeOperationType cr)).1,
      some (dispatch env cr (computeOperationType cr)).2.1,
      (dispatch env cr (computeOperationType cr)).2.2) := by
  simp [Reconcile, hg, hc, hf, hguard]

lemma Reconcile_guard_ok (env : Env) (cr : ContainerRuntime)
    (cluster : Cluster) (w : WatchdogOutcome) (hg : env.getResult = .ok cr)
    (hc : env.clusterResult = .ok cluster) (hf : cluster.failed = false)
    (hcond : cluster.shoot.isSome ∧ computeOperationType cr ≠ .migrate)
    (hw : env.watchdogResult = .ok w) (hok : w.ok = true) :
    Reconcile env = ((dispatch env cr (computeOperationType cr)).1,
      some (dispatch env cr (computeOperationType cr)).2.1,
      .watchdogCheck :: (dispatch env cr (computeOperationType cr)).2.2 ++
        (if w.hasCleanup then [.cleanup] else [])) := by
  simp [Reconcile, hg, hc, hf, hcond.1, hcond.2, hw, hok]

lemma migratePhase_actuator_mem (env : Env) (cr : ContainerRuntime)
    (hp : env.processingResult .migrate = none) :
    Event.actuatorCall .migrate ∈ (migratePhase env cr).2.2 := by
  simp only [migratePhase, hp]
  repeat' split
  all_goals simp

/-- C3: with a live shoot and a non-Migrate classified phase, a negative
ownership verdict makes Reconcile return exactly the error
`this seed is not the owner of shoot <name>` with the fetched object
untouched and a trace holding only the watchdog call — so no actuator
method, no phase handler and no status or store mutation ran; a watchdog
error is propagated the same way. -/
theorem ownership_contested (env : Env) (cr : ContainerRuntime)
    (cluster : Cluster) (n : String)
    (hg : env.getResult = .ok cr) (hc : env.clusterResult = .ok cluster)
    (hf : cluster.failed = false) (hs : cluster.shoot = some n)
    (ht : computeOperationType cr ≠ .migrate) :
    (∀ w, env.watchdogResult = .ok w → w.ok = false →
      Reconcile env = (.error (notOwnerErr n), some cr, [.watchdogCheck])) ∧
    (∀ e, env.watchdogResult = .error e →
      Reconcile env = (.error e, some cr, [.watchdogCheck])) := by
  constructor
  · intro w hw hok
    simp [Reconcile, hg, hc, hf, hs, ht, hw, hok]
  · intro e hw
    simp [Reconcile, hg, hc, hf, hs, ht, hw]

/-- C3 witness. -/
theorem ownership_contested_witness :
    Reconcile { okEnv plainCr with watchdogResult := .ok ⟨false, false⟩ } =
      (.error (notOwnerErr "bar"), some plainCr, [.watchdogCheck]) :=
  (ownership_contested { okEnv plainCr with watchdogResult := .ok ⟨false, false⟩ }
      plainCr ⟨false, some "bar"⟩ "bar" rfl rfl rfl rfl (by decide)).1
    ⟨false, false⟩ rfl rfl

/-- C4: when the classified operation type is Migrate the ownership
watchdog is never consulted (no watchdog event in the trace), yet the
migrate phase handler still runs (Reconcile's result and final object are
the handler's, and once the Processing write succeeds the actuator
Migrate call appears in the trace); likewise the watchdog is never
consulted when the cluster's shoot is nil. -/
theorem migrate_bypasses_guard (env : Env) (cr : ContainerRuntime)
    (cluster : Cluster) (hg : env.getResult = .ok cr)
    (hc : env.clusterResult = .ok cluster) (hf : cluster.failed = false) :
    (computeOperationType cr = .migrate →
      Event.watchdogCheck ∉ (Reconcile env).2.2 ∧
      (env.shouldSkip = false →
        (Reconcile env).1 = (migratePhase env cr).1 ∧
        (Reconcile env).2.1 = some (migratePhase env cr).2.1 ∧
        (env.processingResult .migrate = none →
          Event.actuatorCall .migrate ∈ (Reconcile env).2.2))) ∧
    (cluster.shoot = none → Event.watchdogCheck ∉ (Reconcile env).2.2) := by
  constructor
  · intro ht
    have hguard : ¬(cluster.shoot.isSome ∧ computeOperationType cr ≠ .migrate) := by
      simp [ht]
    have hr := Reconcile_guard_bypassed env cr cluster hg hc hf hguard
    rw [hr]
    constructor
    · exact (dispatch_trace_local env cr _).1
    · intro hsk
      have hde : dispatch env cr (computeOperationType cr) = migratePhase env cr := by
        simp [dispatch, hsk, ht]
      rw [hde]
      exact ⟨rfl, rfl, fun hp => migratePhase_actuator_mem env cr hp⟩
  · intro hshoot
    have hguard : ¬(cluster.shoot.isSome ∧ computeOperationType cr ≠ .migrate) := by
      simp [hshoot]
    rw [Reconcile_guard_bypassed env cr cluster hg hc hf hguard]
    exact (dispatch_trace_local env cr _).1

/-- C4 witness. -/
theorem migrate_bypasses_guard_witness :
    Event.watchdogCheck ∉ (Reconcile (okEnv sampleCr)).2.2 ∧
    (Reconcile (okEnv sampleCr)).1 = (migratePhase (okEnv sampleCr) sampleCr).1 :=
  have h := (migrate_bypasses_guard (okEnv sampleCr) sampleCr ⟨false, some "bar"⟩
    rfl rfl rfl).1 (by decide)
  ⟨h.1, (h.2 rfl).1⟩

lemma deletionTimestamp_of_delete (cr : ContainerRuntime)
    (h : computeOperationType cr = .delete) : cr.deletionTimestamp.isSome := by
  unfold computeOperationType at h
  repeat' split at h
  all_goals simp_all

/-- C9: the ownership-guard cleanup action is invoked exactly once on
every exit path once it is acquired (watchdog ok with a non-nil cleanup),
and never on any path preceding acquisition: not-found or failed fetch,
cluster resolution error, failed cluster, guard not applicable, watchdog
error, negative verdict, or a nil cleanup. -/
theorem cleanup_exactly_once (env : Env) :
    (env.getResult = .notFound →
      ((Reconcile env).2.2).count Event.cleanup = 0) ∧
    (∀ e, env.getResult = .failed e →
      ((Reconcile env).2.2).count Event.cleanup = 0) ∧
    (∀ cr e, env.getResult = .ok cr → env.clusterResult = .error e →
      ((Reconcile env).2.2).count Event.cleanup = 0) ∧
    (∀ cr cluster, env.getResult = .ok cr → env.clusterResult = .ok cluster →
      cluster.failed = true →
      ((Reconcile env).2.2).count Event.cleanup = 0) ∧
    (∀ cr cluster, env.getResult = .ok cr → env.clusterResult = .ok cluster →
      cluster.failed = false →
      ¬(cluster.shoot.isSome ∧ computeOperationType cr ≠ .migrate) →
      ((Reconcile env).2.2).count Event.cleanup = 0) ∧
    (∀ cr cluster e, env.getResult = .ok cr → env.clusterResult = .ok cluster →
      cluster.failed = false →
      (cluster.shoot.isSome ∧ computeOperationType cr ≠ .migrate) →
      env.watchdogResult = .error e →
      ((Reconcile env).2.2).count Event.cleanup = 0) ∧
    (∀ cr cluster w, env.getResult = .ok cr → env.clusterResult = .ok cluster →
      cluster.failed = false →
      (cluster.shoot.isSome ∧ computeOperationType cr ≠ .migrate) →
      env.watchdogResult = .ok w → w.ok = false →
      ((Reconcile env).2.2).count Event.cleanup = 0) ∧
    (∀ cr cluster w, env.getResult = .ok cr → env.clusterResult = .ok cluster →
      cluster.failed = false →
      (cluster.shoot.isSome ∧ computeOperationType cr ≠ .migrate) →
      env.watchdogResult = .ok w → w.ok = true →
      ((Reconcile env).2.2).count Event.cleanup =
        if w.hasCleanup then 1 else 0) := by
  refine ⟨fun hg => ?_, fun e hg => ?_, fun cr e hg hc => ?_,
    fun cr cluster hg hc hf => ?_, fun cr cluster hg hc hf hguard => ?_,
    fun cr cluster e hg hc hf hcond hw => ?_,
    fun cr cluster w hg hc hf hcond hw hok => ?_,
    fun cr cluster w hg hc hf hcond hw hok => ?_⟩
  · simp [Reconcile, hg]
  · simp [Reconcile, hg]
  · simp [Reconcile, hg, hc]
  · simp [Reconcile, hg, hc, hf]
  · rw [Reconcile_guard_bypassed env cr cluster hg hc hf hguard]
    exact List.count_eq_zero.mpr (dispatch_trace_local env cr _).2
  · simp [Reconcile, hg, hc, hf, hcond.1, hcond.2, hw]
  · simp [Reconcile, hg, hc, hf, hcond.1, hcond.2, hw, hok]
  · rw [Reconcile_guard_ok env cr cluster w hg hc hf hcond hw hok]
    have h0 : ((dispatch env cr (computeOperationType cr)).2.2).count Event.cleanup = 0 :=
      List.count_eq_zero.mpr (dispatch_trace_local env cr _).2
    cases hcl : w.hasCleanup <;>
      simp [List.count_cons, List.count_append, h0, hcl]

/-- C9 witness. -/
theorem cleanup_exactly_once_witness :
    ((Reconcile (okEnv plainCr)).2.2).count Event.cleanup = 1 := by
  have h := (cleanup_exactly_once
    (okEnv plainCr)).2.2.2.2.2.2.2 plainCr ⟨false, some "bar"⟩ ⟨true, true⟩
    rfl rfl rfl (by decide) rfl rfl
  simpa using h

/-- C1: after the fetch, cluster, failed-cluster, ownership and skip
checks pass, Reconcile dispatches to exactly one of the four phase
handlers in priority order — migrate when the classified type is Migrate,
otherwise delete when the deletion timestamp is set, otherwise restore
when the classified type is Restore, otherwise reconcile (and the
classified type is then Reconcile) — and classification is a total
deterministic function into exactly the four phases. -/
theorem dispatch_priority (env : Env) (cr : ContainerRuntime)
    (cluster : Cluster) (hg : env.getResult = .ok cr)
    (hc : env.clusterResult = .ok cluster) (hf : cluster.failed = false)
    (hsk : env.shouldSkip = false)
    (hw : env.watchdogResult = .ok ⟨true, false⟩) :
    (computeOperationType cr = .migrate →
      (Reconcile env).1 = (migratePhase env cr).1 ∧
      (Reconcile env).2.1 = some (migratePhase env cr).2.1) ∧
    (computeOperationType cr ≠ .migrate → cr.deletionTimestamp.isSome →
      (Reconcile env).1 = (deletePhase env cr).1 ∧
      (Reconcile env).2.1 = some (deletePhase env cr).2.1) ∧
    (computeOperationType cr ≠ .migrate → ¬cr.deletionTimestamp.isSome →
      computeOperationType cr = .restore →
      (Reconcile env).1 = (restorePhase env cr).1 ∧
      (Reconcile env).2.1 = some (restorePhase env cr).2.1) ∧
    (computeOperationType cr ≠ .migrate → ¬cr.deletionTimestamp.isSome →
      computeOperationType cr ≠ .restore →
      computeOperationType cr = .reconcile ∧
      (Reconcile env).1 = (reconcilePhase env cr (computeOperationType cr)).1 ∧
      (Reconcile env).2.1 =
        some (reconcilePhase env cr (computeOperationType cr)).2.1) ∧
    (∀ cr2 : ContainerRuntime,
      computeOperationType cr2 = .reconcile ∨ computeOperationType cr2 = .restore ∨
      computeOperationType cr2 = .delete ∨ computeOperationType cr2 = .migrate) ∧
    (∀ cr2 : ContainerRuntime, computeOperationType cr2 = computeOperationType cr2) := by
  have hred : ∀ h : Outcome,
      dispatch env cr (computeOperationType cr) = h →
      (Reconcile env).1 = h.1 ∧ (Reconcile env).2.1 = some h.2.1 := by
    intro h hdisp
    by_cases hcond : cluster.shoot.isSome ∧ computeOperationType cr ≠ .migrate
    · rw [Reconcile_guard_ok env cr cluster ⟨true, false⟩ hg hc hf hcond hw rfl, hdisp]
      exact ⟨rfl, rfl⟩
    · rw [Reconcile_guard_bypassed env cr cluster hg hc hf hcond, hdisp]
      exact ⟨rfl, rfl⟩
  refine ⟨fun ht => ?_, fun ht hd => ?_, fun ht hd hr => ?_, fun ht hd hr => ?_,
    fun cr2 => ?_, fun cr2 => rfl⟩
  · exact hred _ (by simp [dispatch, hsk, ht])
  · exact hred _ (by simp [dispatch, hsk, ht, hd])
  · exact hred _ (by simp [dispatch, hsk, ht, hd, hr])
  · have hrec : computeOperationType cr = .reconcile := by
      have hdel : computeOperationType cr ≠ .delete := fun h =>
        hd (deletionTimestamp_of_delete cr h)
      cases h : computeOperationType cr <;> simp_all
    exact ⟨hrec, hred _ (by simp [dispatch, hsk, ht, hd, hr])⟩
  · cases h : computeOperationType cr2 <;> simp

/-- C1 witness. -/
theorem dispatch_priority_witness :
    (Reconcile { okEnv plainCr with watchdogResult := .ok ⟨true, false⟩ }).1 =
      (reconcilePhase { okEnv plainCr with watchdogResult := .ok ⟨true, false⟩ }
        plainCr (computeOperationType plainCr)).1 ∧
    computeOperationType plainCr = .reconcile :=
  have h := (dispatch_priority
    { okEnv plainCr with watchdogResult := .ok ⟨true, false⟩ } plainCr
    ⟨false, some "bar"⟩ rfl rfl rfl rfl rfl).2.2.2.1
    (by decide) (by decide) (by decide)
  ⟨h.2.1, h.1⟩

end ContainerRuntimeReconciler
